import Mathlib

/-!
Verification of the SPA authentication coordinator
(`src/spa/src/plumbing/oauth/authenticator.ts`).

The `Authenticator` class is embedded shallowly: the mutable state it touches
(the in-memory user store of the OIDC `UserManager`, the `_loginTime` field,
the persisted `isLoggedIn` flag, and the browser location / history / redirect
state store) is gathered into a `World` structure, and each public method
becomes a pure function from a `World` (plus the outcome of any external
protocol call, passed as an oracle argument) to a result paired with an
updated `World`.  Fallible methods return `Except UIError`.
-/

/-- The OIDC configuration supplied at construction
(`OAuthConfiguration`); only `provider` drives control flow. -/
structure OAuthConfiguration where
  authority : String
  clientId : String
  redirectUri : String
  postLogoutRedirectUri : String
  scope : String
  provider : String
  customLogoutEndpoint : String
deriving DecidableEq, Repr

/-- A user record held by the `UserManager` in-memory store.  JavaScript
truthiness of `user.access_token` / `user.refresh_token` makes the empty
string equivalent to an absent token, so tokens are plain strings with `""`
meaning absent (the source itself writes `user.refresh_token = ''`). -/
structure User where
  access_token : String
  refresh_token : String
deriving DecidableEq, Repr

/-- The user returned by `signinRedirectCallback`: tokens plus the echoed
redirect state, whose `hash` field was stored by `startLogin`. -/
structure CallbackUser where
  access_token : String
  refresh_token : String
  stateHash : String
deriving DecidableEq, Repr

/-- Forget the echoed redirect state, keeping what the store persists. -/
def CallbackUser.toUser (u : CallbackUser) : User :=
  ⟨u.access_token, u.refresh_token⟩

/-- An error thrown by the OIDC protocol library, carrying the OAuth
`error` code field that the source inspects (`e.error`). -/
structure ProtoError where
  error : String
deriving DecidableEq, Repr

/-- Modelled from the spec: `UIError` (class not under `src/`) is the
application error type surfaced to callers; it "wraps an underlying cause
and carries a stable machine-readable code". -/
structure UIError where
  errorCode : String
  details : String
deriving DecidableEq, Repr

namespace ErrorCodes

/-- OAuth `login_required` error returned by iframe renewal when the SSO
cookie is absent (source comment at `authenticator.ts:284`). -/
def loginRequired : String := "login_required"

/-- OAuth `invalid_grant` response marking an expired session on the
refresh-token grant (source comment at `authenticator.ts:316`). -/
def sessionExpired : String := "invalid_grant"

/-- Modelled from the spec: the stable token-renewal error code
(`ErrorCodes` is not under `src/`). -/
def tokenRenewalError : String := "token_renewal_error"

/-- Modelled from the spec: the stable login-request failure code. -/
def loginRequestFailed : String := "login_request_failed"

/-- Modelled from the spec: the stable login-response failure code. -/
def loginResponseFailed : String := "login_response_failed"

end ErrorCodes

/-- A JavaScript exception reaching a `catch (e: any)` handler: either an
application `UIError` (such as the rethrown prior 401 error) or a protocol
library error. -/
inductive Thrown where
  | ui (e : UIError)
  | proto (e : ProtoError)
deriving DecidableEq, Repr

namespace ErrorFactory

/-- Modelled from the spec: `ErrorFactory.getFromLoginOperation`
(`ErrorFactory` is not under `src/`).  The spec states that `startLogin`
"rethrows that exact error" when the redirect-loop guard fires, so an error
that is already a `UIError` passes through unchanged; other failures are
"classified as a login-request failure" by wrapping them with the stable
code supplied. -/
def getFromLoginOperation : Thrown → String → UIError
  | .ui e, _ => e
  | .proto p, code => ⟨code, p.error⟩

/-- Modelled from the spec: `ErrorFactory.getFromTokenError` wraps a silent
renewal failure "as a token-renewal error" with the stable code supplied. -/
def getFromTokenError : Thrown → String → UIError
  | .ui e, _ => e
  | .proto p, code => ⟨code, p.error⟩

end ErrorFactory

/-- Everything the `Authenticator` methods read or write:
* `user` — the `UserManager` in-memory user store (`getUser` / `storeUser`
  / `removeUser`);
* `loginTime` — the `_loginTime` field (`new Date().getTime()` values);
* `isLoggedIn` — modelled from the spec: `HtmlStorageHelper.isLoggedIn`
  (helper not under `src/`), the persisted tab-shareable boolean flag;
* `locationHash` / `locationSearch` — the browser location fragment and
  parsed query parameters;
* `stateStore` — the keys of the session-storage redirect state store
  (`settings.stateStore.get`);
* `historyReplacements` — the targets of each `history.replaceState` call,
  in order;
* `redirectStarted` — the `state.hash` payload captured by
  `signinRedirect`, when a login redirect has been started. -/
structure World where
  user : Option User
  loginTime : Option Int
  isLoggedIn : Bool
  locationHash : String
  locationSearch : List (String × String)
  stateStore : List String
  historyReplacements : List String
  redirectStarted : Option String
deriving DecidableEq, Repr

/-- `URLSearchParams.get`: first value bound to the key, else null. -/
def lookupParam (params : List (String × String)) (k : String) : Option String :=
  match params.find? (fun p => p.1 = k) with
  | some p => some p.2
  | none => none

/-- `history.replaceState({}, document.title, target)`: the navigation entry
is replaced, so the visible URL becomes `target` (a fragment-only URL: the
query string disappears) and the replacement is recorded. -/
def replaceHistoryState (target : String) (w : World) : World :=
  { w with
    locationHash := target
    locationSearch := []
    historyReplacements := w.historyReplacements ++ [target] }

/-- `clearLoginState`: remove the stored user, null the login time, clear
the persisted flag (`authenticator.ts:252-257`). -/
def clearLoginState (w : World) : World :=
  { w with user := none, loginTime := none, isLoggedIn := false }

/-- The access token the final `getUser` read of `refreshAccessToken`
observes: present iff a user is stored with a truthy `access_token`. -/
def accessTokenOf (w : World) : Option String :=
  match w.user with
  | some u => if u.access_token ≠ "" then some u.access_token else none
  | none => none

/-- Outcome of a `signinSilent` call: the library either stores a renewed
user or throws a protocol error. -/
inductive SilentResult where
  | renewed (u : User)
  | failed (e : ProtoError)
deriving DecidableEq, Repr

/-- `_performAccessTokenRenewalViaIframeRedirect`
(`authenticator.ts:278-300`): on a `login_required` failure clear the login
state, on any other failure wrap and rethrow as a token-renewal error. -/
def performAccessTokenRenewalViaIframeRedirect (res : SilentResult)
    (w : World) : Except UIError Unit × World :=
  match res with
  | .renewed u => (.ok (), { w with user := some u })
  | .failed e =>
    if e.error = ErrorCodes.loginRequired then
      (.ok (), clearLoginState w)
    else
      (.error (ErrorFactory.getFromTokenError (.proto e)
 ErrorCodes.tokenRenewalError), w)

/-- `_performAccessTokenRenewalViaRefreshToken`
(`authenticator.ts:307-328`): on an `invalid_grant` (session expired)
failure clear the login state, on any other failure wrap and rethrow. -/
def performAccessTokenRenewalViaRefreshToken (res : SilentResult)
    (w : World) : Except UIError Unit × World :=
  match res with
  | .renewed u => (.ok (), { w with user := some u })
  | .failed e =>
    if e.error = ErrorCodes.sessionExpired then
      (.ok (), clearLoginState w)
    else
      (.error (ErrorFactory.getFromTokenError (.proto e)
 ErrorCodes.tokenRenewalError), w)

/-- Lines `99-103`: after iframe renewal, blank out any refresh token the
stored user carries and store the user again. -/
def stripStoredRefreshToken (w : World) : World :=
  match w.user with
  | some u =>
    if u.refresh_token ≠ "" then
      { w with user := some { u with refresh_token := "" } }
    else w
  | none => w

/-- `refreshAccessToken` (`authenticator.ts:75-113`).  `res` is the outcome
of the `signinSilent` call, consulted only on the paths that reach it. -/
def refreshAccessToken (cfg : OAuthConfiguration) (res : SilentResult)
    (w : World) : Except UIError (Option String) × World :=
  if w.isLoggedIn then
    if cfg.provider = "cognito" then
      match w.user with
      | some u =>
        if u.refresh_token ≠ "" then
          match performAccessTokenRenewalViaRefreshToken res w with
          | (.ok _, w') => (.ok (accessTokenOf w'), w')
          | (.error e, w') => (.error e, w')
        else (.ok (accessTokenOf w), w)
      | none => (.ok (accessTokenOf w), w)
    else
      match performAccessTokenRenewalViaIframeRedirect res w with
      | (.ok _, w') =>
        let w'' := stripStoredRefreshToken w'
        (.ok (accessTokenOf w''), w'')
      | (.error e, w') => (.error e, w')
  else (.ok none, w)

/-- `getAccessToken` (`authenticator.ts:60-70`): return the stored access
token when truthy, otherwise fall back to `refreshAccessToken`. -/
def getAccessToken (cfg : OAuthConfiguration) (res : SilentResult)
    (w : World) : Except UIError (Option String) × World :=
  match w.user with
  | some u =>
    if u.access_token ≠ "" then (.ok (some u.access_token), w)
    else refreshAccessToken cfg res w
  | none => refreshAccessToken cfg res w

/-- `_preventRedirectLoop` (`authenticator.ts:344-357`).  The guard runs
only when both `api401Error` and `_loginTime` are truthy (a numeric login
time of `0` is falsy in JavaScript); under one second since login it clears
the login state and throws the prior error. -/
def preventRedirectLoop (api401Error : Option UIError) (now : Int)
    (w : World) : Except UIError Unit × World :=
  match api401Error, w.loginTime with
  | some err, some t =>
    if t ≠ 0 then
      if now - t < 1000 then (.error err, clearLoginState w)
      else (.ok (), w)
    else (.ok (), w)
  | _, _ => (.ok (), w)

/-- Line `124`: the client-side fragment captured into redirect state,
defaulting to the root fragment when the location has no fragment. -/
def captureHash (locationHash : String) : String :=
  if locationHash.length > 0 then locationHash else "#"

/-- `startLogin` (`authenticator.ts:118-140`).  `redirectOutcome` is the
outcome of the `signinRedirect` call (`none` = the redirect starts, `some
e` = the protocol layer throws, e.g. metadata discovery failure); both the
guard's throw and the protocol throw are caught and passed through
`ErrorFactory.getFromLoginOperation` with the login-request-failed code. -/
def startLogin (api401Error : Option UIError) (now : Int)
    (redirectOutcome : Option ProtoError) (w : World) :
    Except UIError Unit × World :=
  match preventRedirectLoop api401Error now w with
  | (.error e, w') =>
    (.error (ErrorFactory.getFromLoginOperation (.ui e)
 ErrorCodes.loginRequestFailed), w')
  | (.ok _, w') =>
    match redirectOutcome with
    | none =>
      (.ok (), { w' with redirectStarted := some (captureHash w.locationHash) })
    | some pe =>
      (.error (ErrorFactory.getFromLoginOperation (.proto pe)
 ErrorCodes.loginRequestFailed), w')

/-- `handleLoginResponse` (`authenticator.ts:145-192`).  `callbackResult`
is the outcome of `signinRedirectCallback`, consulted only when a truthy
`state` query parameter has matching stored redirect state.  On success the
refresh token is blanked for non-Cognito providers, the user is stored, the
persisted flag and login time are set, and the saved fragment is restored;
on failure the wrapped error is rethrown; on both paths the `finally` block
replaces the navigation entry (with the root fragment on failure). -/
def handleLoginResponse (cfg : OAuthConfiguration)
    (callbackResult : Except ProtoError CallbackUser) (now : Int)
    (w : World) : Except UIError Unit × World :=
  match lookupParam w.locationSearch "state" with
  | some st =>
    if st ≠ "" then
      if w.stateStore.contains st then
        match callbackResult with
        | .ok cu =>
          let stored :=
            if cfg.provider ≠ "cognito" then
              { cu.toUser with refresh_token := "" }
            else cu.toUser
          let w₁ :=
            { w with
              user := some stored
              isLoggedIn := true
              loginTime := some now }
          (.ok (), replaceHistoryState cu.stateHash w₁)
        | .error e =>
          (.error (ErrorFactory.getFromLoginOperation (.proto e)
 ErrorCodes.loginResponseFailed), replaceHistoryState "#" w)
      else (.ok (), w)
    else (.ok (), w)
  | none => (.ok (), w)

/-! ### Concrete fixtures used by witnesses and counterexamples -/

/-- A Cognito configuration. -/
def cfgCognito : OAuthConfiguration :=
  ⟨"https://idp.example", "client1", "https://app.example",
   "https://app.example/loggedout", "openid profile", "cognito",
   "https://idp.example/logout"⟩

/-- A non-Cognito (standard provider) configuration. -/
def cfgStandard : OAuthConfiguration :=
  { cfgCognito with provider := "standard" }

/-- A freshly loaded, logged-out world. -/
def sampleWorld : World :=
  { user := none, loginTime := none, isLoggedIn := false,
    locationHash := "", locationSearch := [], stateStore := [],
    historyReplacements := [], redirectStarted := none }

/-- A page load carrying an OAuth response with matching stored state. -/
def wCallback : World :=
  { sampleWorld with
    locationSearch := [("state", "st1"), ("code", "abc")]
    stateStore := ["st1"] }

/-- A logged-in world whose login completed at time 100. -/
def wLogged : World :=
  { sampleWorld with
    user := some ⟨"tok0", ""⟩
    loginTime := some 100
    isLoggedIn := true }

/-! ### Claim theorems -/

/-- C8: `clearLoginState` is idempotent — calling it twice yields the same
final state as calling it once, namely session removed, login timestamp
null and `isLoggedIn` false. -/
theorem clearLoginState_idempotent (w : World) :
    clearLoginState (clearLoginState w) = clearLoginState w ∧
    (clearLoginState w).user = none ∧
    (clearLoginState w).loginTime = none ∧
    (clearLoginState w).isLoggedIn = false :=
  ⟨rfl, rfl, rfl, rfl⟩

/-- C7: when the persisted `isLoggedIn` flag is false, `refreshAccessToken`
returns null without consulting the silent-renewal outcome (the result is
the same for every `res`, so no renewal call is made) and without modifying
any state. -/
theorem refreshAccessToken_noop_when_logged_out
    (cfg : OAuthConfiguration) (res : SilentResult) (w : World)
    (h : w.isLoggedIn = false) :
    refreshAccessToken cfg res w = (.ok none, w) := by
  simp [refreshAccessToken, h]

/-- Witness for C7. -/
theorem refreshAccessToken_noop_when_logged_out_witness :
    refreshAccessToken cfgStandard (.failed ⟨"boom"⟩) sampleWorld =
      (.ok none, sampleWorld) :=
  refreshAccessToken_noop_when_logged_out cfgStandard (.failed ⟨"boom"⟩)
    sampleWorld rfl

/-- C6: when an access token is present in session state, `getAccessToken`
returns it with the whole state unchanged and independently of the renewal
outcome (so no refresh is invoked); when no access token is present it
returns exactly the result of `refreshAccessToken`. -/
theorem getAccessToken_present_token_no_refresh :
    (∀ (cfg : OAuthConfiguration) (res : SilentResult) (w : World) (u : User),
      w.user = some u → u.access_token ≠ "" →
      getAccessToken cfg res w = (.ok (some u.access_token), w)) ∧
    (∀ (cfg : OAuthConfiguration) (res : SilentResult) (w : World),
      accessTokenOf w = none →
      getAccessToken cfg res w = refreshAccessToken cfg res w) := by
  constructor
  · intro cfg res w u hu ha
    simp [getAccessToken, hu, ha]
  · intro cfg res w h
    match hw : w.user with
    | none => simp [getAccessToken, hw]
    | some u =>
      simp only [accessTokenOf, hw] at h
      by_cases ha : u.access_token = ""
      · simp [getAccessToken, hw, ha]
      · simp [ha] at h

/-- Witness for C6: a stored token is returned untouched even when the
renewal oracle would fail. -/
theorem getAccessToken_present_token_no_refresh_witness :
    getAccessToken cfgStandard (.failed ⟨"boom"⟩) wLogged =
      (.ok (some "tok0"), wLogged) :=
  getAccessToken_present_token_no_refresh.1 cfgStandard (.failed ⟨"boom"⟩)
    wLogged ⟨"tok0", ""⟩ rfl (by decide)

/-- C10: for Cognito with `isLoggedIn` true but no refresh token stored,
`refreshAccessToken` makes no silent-renewal call (the result ignores
`res`), leaves the state unchanged, and returns the stored access token if
one is present and null otherwise. -/
theorem refreshAccessToken_cognito_without_refresh_token
    (cfg : OAuthConfiguration) (res : SilentResult) (w : World)
    (hp : cfg.provider = "cognito") (hl : w.isLoggedIn = true)
    (hrt : ∀ u, w.user = some u → u.refresh_token = "") :
    refreshAccessToken cfg res w = (.ok (accessTokenOf w), w) := by
  match hw : w.user with
  | none => simp [refreshAccessToken, hp, hl, hw]
  | some u =>
    have h := hrt u hw
    simp [refreshAccessToken, hp, hl, hw, h]

/-- Witness for C10. -/
theorem refreshAccessToken_cognito_without_refresh_token_witness :
    refreshAccessToken cfgCognito (.failed ⟨"boom"⟩)
      { wLogged with isLoggedIn := true } =
      (.ok (some "tok0"), { wLogged with isLoggedIn := true }) := by
  have h := refreshAccessToken_cognito_without_refresh_token cfgCognito
    (.failed ⟨"boom"⟩) { wLogged with isLoggedIn := true } rfl rfl
    (by intro u hu; simp [wLogged, sampleWorld] at hu; simp [← hu])
  simpa [accessTokenOf, wLogged, sampleWorld] using h

/-- C9: a page load whose `state` query parameter matches no stored
redirect state is a complete no-op: the result ignores the callback oracle
(no code exchange is attempted) and the whole world — session state,
flags, location, history — is returned unchanged. -/
theorem handleLoginResponse_unmatched_state_noop
    (cfg : OAuthConfiguration) (res : Except ProtoError CallbackUser)
    (now : Int) (w : World) (st : String)
    (h1 : lookupParam w.locationSearch "state" = some st) (h2 : st ≠ "")
    (h3 : w.stateStore.contains st = false) :
    handleLoginResponse cfg res now w = (.ok (), w) := by
  have h3' : ¬ st ∈ w.stateStore := by simpa using h3
  simp [handleLoginResponse, h1, h2, h3']

/-- Witness for C9: an OAuth-looking query with no stored state. -/
theorem handleLoginResponse_unmatched_state_noop_witness :
    handleLoginResponse cfgStandard (.error ⟨"boom"⟩) 100
      { sampleWorld with locationSearch := [("state", "zz")] } =
      (.ok (), { sampleWorld with locationSearch := [("state", "zz")] }) :=
  handleLoginResponse_unmatched_state_noop cfgStandard (.error ⟨"boom"⟩) 100
    { sampleWorld with locationSearch := [("state", "zz")] } "zz"
    (by decide) (by decide) (by decide)

/-- C3: whenever a matching OAuth callback is detected, the navigation
entry is replaced — stripping the query parameters from the visible URL —
both when the code exchange succeeds and when it throws, and on the
throwing path the replacement target is the root fragment. -/
theorem handleLoginResponse_always_strips_url
    (cfg : OAuthConfiguration) (res : Except ProtoError CallbackUser)
    (now : Int) (w : World) (st : String)
    (h1 : lookupParam w.locationSearch "state" = some st) (h2 : st ≠ "")
    (h3 : w.stateStore.contains st = true) :
    (handleLoginResponse cfg res now w).2.historyReplacements =
      w.historyReplacements ++
        [match res with | .ok cu => cu.stateHash | .error _ => "#"] ∧
    (handleLoginResponse cfg res now w).2.locationSearch = [] := by
  have h3' : st ∈ w.stateStore := by simpa using h3
  cases res <;>
    simp [handleLoginResponse, h1, h2, h3', replaceHistoryState]

/-- Witness for C3: a throwing exchange still scrubs the URL, targeting
the root fragment. -/
theorem handleLoginResponse_always_strips_url_witness :
    (handleLoginResponse cfgStandard (.error ⟨"access_denied"⟩) 100
        wCallback).2.historyReplacements = ["#"] ∧
    (handleLoginResponse cfgStandard (.error ⟨"access_denied"⟩) 100
        wCallback).2.locationSearch = [] := by
  have h := handleLoginResponse_always_strips_url cfgStandard
    (.error ⟨"access_denied"⟩) 100 wCallback "st1" (by decide) (by decide)
    (by decide)
  simpa [wCallback, sampleWorld] using h

/-- C5: a successful matching login callback restores the saved fragment as
the browser location, sets the persisted `isLoggedIn` flag, records the
login timestamp, and persists the session state (with the refresh token
stripped for non-Cognito providers); and the fragment saved by `startLogin`
for a location with no fragment is the root fragment. -/
theorem handleLoginResponse_success_state
    (cfg : OAuthConfiguration) (cu : CallbackUser) (now : Int) (w : World)
    (st : String)
    (h1 : lookupParam w.locationSearch "state" = some st) (h2 : st ≠ "")
    (h3 : w.stateStore.contains st = true) :
    (handleLoginResponse cfg (.ok cu) now w).2.locationHash = cu.stateHash ∧
    (handleLoginResponse cfg (.ok cu) now w).2.isLoggedIn = true ∧
    (handleLoginResponse cfg (.ok cu) now w).2.loginTime = some now ∧
    (handleLoginResponse cfg (.ok cu) now w).2.user =
      some (if cfg.provider ≠ "cognito" then
              { cu.toUser with refresh_token := "" }
            else cu.toUser) ∧
    (handleLoginResponse cfg (.ok cu) now w).1 = .ok () ∧
    captureHash "" = "#" := by
  have h3' : st ∈ w.stateStore := by simpa using h3
  refine ⟨?_, ?_, ?_, ?_, ?_, rfl⟩ <;>
    simp [handleLoginResponse, h1, h2, h3', replaceHistoryState]

/-- Witness for C5: the saved fragment `#foo` is restored. -/
theorem handleLoginResponse_success_state_witness :
    (handleLoginResponse cfgStandard (.ok ⟨"at1", "rt1", "#foo"⟩) 100
        wCallback).2.locationHash = "#foo" ∧
    (handleLoginResponse cfgStandard (.ok ⟨"at1", "rt1", "#foo"⟩) 100
        wCallback).2.isLoggedIn = true ∧
    (handleLoginResponse cfgStandard (.ok ⟨"at1", "rt1", "#foo"⟩) 100
        wCallback).2.loginTime = some 100 ∧
    (handleLoginResponse cfgStandard (.ok ⟨"at1", "rt1", "#foo"⟩) 100
        wCallback).2.user = some ⟨"at1", ""⟩ ∧
    captureHash "" = "#" := by
  have h := handleLoginResponse_success_state cfgStandard ⟨"at1", "rt1", "#foo"⟩
    100 wCallback "st1" (by decide) (by decide) (by decide)
  refine ⟨h.1, h.2.1, h.2.2.1, ?_, h.2.2.2.2.2⟩
  have h4 := h.2.2.2.1
  simpa [cfgStandard, cfgCognito, CallbackUser.toUser] using h4

/-- C1: with a prior 401 error and a recorded (nonzero) login time, a call
to `startLogin` less than 1000 ms after login clears all session state and
rethrows that exact error — whatever the redirect outcome would have been,
so no redirect starts; 5 seconds or more after login, or with the error or
the timestamp absent, the login redirect proceeds normally. -/
theorem startLogin_redirect_loop_guard :
    (∀ (err : UIError) (t now : Int) (ro : Option ProtoError) (w : World),
      w.loginTime = some t → t ≠ 0 → now - t < 1000 →
      startLogin (some err) now ro w = (.error err, clearLoginState w)) ∧
    (∀ (err : UIError) (t now : Int) (w : World),
      w.loginTime = some t → 5000 ≤ now - t →
      startLogin (some err) now none w =
        (.ok (), { w with redirectStarted := some (captureHash w.locationHash) })) ∧
    (∀ (err : UIError) (now : Int) (w : World),
      w.loginTime = none →
      startLogin (some err) now none w =
        (.ok (), { w with redirectStarted := some (captureHash w.locationHash) })) ∧
    (∀ (now : Int) (w : World),
      startLogin none now none w =
        (.ok (), { w with redirectStarted := some (captureHash w.locationHash) })) := by
  refine ⟨?_, ?_, ?_, ?_⟩
  · intro err t now ro w h1 h2 h3
    simp [startLogin, preventRedirectLoop, h1, h2, h3,
      ErrorFactory.getFromLoginOperation]
  · intro err t now w h1 h5
    by_cases ht : t = 0
    · simp [startLogin, preventRedirectLoop, h1, ht]
    · have hge : ¬ now - t < 1000 := by omega
      simp [startLogin, preventRedirectLoop, h1, ht, hge]
  · intro err now w h1
    simp [startLogin, preventRedirectLoop, h1]
  · intro now w
    simp [startLogin, preventRedirectLoop]

/-- Witness for C1: a 401 error 400 ms after login is rethrown unchanged
with the session cleared, even though the redirect itself would have
succeeded. -/
theorem startLogin_redirect_loop_guard_witness :
    startLogin (some ⟨"unauthorized", "api 401"⟩) 500 none wLogged =
      (.error ⟨"unauthorized", "api 401"⟩, clearLoginState wLogged) :=
  startLogin_redirect_loop_guard.1 ⟨"unauthorized", "api 401"⟩ 100 500 none
    wLogged rfl (by decide) (by decide)

/-- C4: classification of silent-renewal failures by `refreshAccessToken`.
Under the refresh-token (Cognito) strategy a session-expired
(`invalid_grant`) failure clears all session state and the call returns
null without raising; under the iframe strategy a login-required failure
does the same; any other failure under either strategy is raised as a
token-renewal error carrying the stable token-renewal code. -/
theorem refreshAccessToken_failure_classification :
    (∀ (cfg : OAuthConfiguration) (w : World) (u : User) (e : ProtoError),
      cfg.provider = "cognito" → w.isLoggedIn = true → w.user = some u →
      u.refresh_token ≠ "" → e.error = ErrorCodes.sessionExpired →
      refreshAccessToken cfg (.failed e) w = (.ok none, clearLoginState w)) ∧
    (∀ (cfg : OAuthConfiguration) (w : World) (u : User) (e : ProtoError),
      cfg.provider = "cognito" → w.isLoggedIn = true → w.user = some u →
      u.refresh_token ≠ "" → e.error ≠ ErrorCodes.sessionExpired →
      refreshAccessToken cfg (.failed e) w =
        (.error ⟨ErrorCodes.tokenRenewalError, e.error⟩, w)) ∧
    (∀ (cfg : OAuthConfiguration) (w : World) (e : ProtoError),
      cfg.provider ≠ "cognito" → w.isLoggedIn = true →
      e.error = ErrorCodes.loginRequired →
      refreshAccessToken cfg (.failed e) w = (.ok none, clearLoginState w)) ∧
    (∀ (cfg : OAuthConfiguration) (w : World) (e : ProtoError),
      cfg.provider ≠ "cognito" → w.isLoggedIn = true →
      e.error ≠ ErrorCodes.loginRequired →
      refreshAccessToken cfg (.failed e) w =
        (.error ⟨ErrorCodes.tokenRenewalError, e.error⟩, w)) := by
  refine ⟨?_, ?_, ?_, ?_⟩
  · intro cfg w u e hp hl hu hrt he
    simp [refreshAccessToken, performAccessTokenRenewalViaRefreshToken,
      hp, hl, hu, hrt, he, clearLoginState, accessTokenOf]
  · intro cfg w u e hp hl hu hrt he
    simp [refreshAccessToken, performAccessTokenRenewalViaRefreshToken,
      hp, hl, hu, hrt, he, ErrorFactory.getFromTokenError]
  · intro cfg w e hp hl he
    simp [refreshAccessToken, performAccessTokenRenewalViaIframeRedirect,
      hp, hl, he, clearLoginState, stripStoredRefreshToken, accessTokenOf]
  · intro cfg w e hp hl he
    simp [refreshAccessToken, performAccessTokenRenewalViaIframeRedirect,
      hp, hl, he, ErrorFactory.getFromTokenError]

/-- Witness for C4: an `invalid_grant` failure on the Cognito refresh-token
path clears the session and yields null. -/
theorem refreshAccessToken_failure_classification_witness :
    refreshAccessToken cfgCognito (.failed ⟨"invalid_grant"⟩)
      { wLogged with user := some ⟨"tok0", "rt0"⟩ } =
      (.ok none, clearLoginState { wLogged with user := some ⟨"tok0", "rt0"⟩ }) :=
  refreshAccessToken_failure_classification.1 cfgCognito
    { wLogged with user := some ⟨"tok0", "rt0"⟩ } ⟨"tok0", "rt0"⟩
    ⟨"invalid_grant"⟩ rfl rfl rfl (by decide) rfl

/-- Counterexample to C2 as stated: for the Cognito provider a refresh
token returned from login-callback handling IS persisted in session state
(`authenticator.ts:164` strips it only when the provider is not Cognito,
and the Cognito renewal path at lines 87-90 relies on it being stored). -/
theorem handleLoginResponse_cognito_persists_refresh_token :
    (handleLoginResponse cfgCognito (.ok ⟨"at1", "rt1", "#home"⟩) 100
        wCallback).2.user = some ⟨"at1", "rt1"⟩ ∧ "rt1" ≠ "" := by
  constructor
  · rfl
  · decide

/-- C2 (amended): for every provider other than Cognito, a refresh token
returned from login-callback handling is never persisted, and after an
iframe-based silent renewal no refresh token is present in the persisted
session state. -/
theorem refresh_token_never_persisted_non_cognito :
    (∀ (cfg : OAuthConfiguration) (cu : CallbackUser) (now : Int) (w : World)
        (st : String),
      cfg.provider ≠ "cognito" →
      lookupParam w.locationSearch "state" = some st → st ≠ "" →
      w.stateStore.contains st = true →
      (handleLoginResponse cfg (.ok cu) now w).2.user =
        some { cu.toUser with refresh_token := "" }) ∧
    (∀ (cfg : OAuthConfiguration) (u : User) (w : World),
      cfg.provider ≠ "cognito" → w.isLoggedIn = true →
      (refreshAccessToken cfg (.renewed u) w).2.user =
        some { u with refresh_token := "" }) := by
  constructor
  · intro cfg cu now w st hp h1 h2 h3
    have h3' : st ∈ w.stateStore := by simpa using h3
    simp [handleLoginResponse, h1, h2, h3', hp, replaceHistoryState]
  · intro cfg u w hp hl
    by_cases hrt : u.refresh_token = ""
    · simp [refreshAccessToken, performAccessTokenRenewalViaIframeRedirect,
        hp, hl, stripStoredRefreshToken, hrt]
      cases u
      simp_all
    · simp [refreshAccessToken, performAccessTokenRenewalViaIframeRedirect,
        hp, hl, stripStoredRefreshToken, hrt]

/-- Witness for the amended C2: a non-Cognito iframe renewal that returns a
refresh token leaves only a blanked refresh token in session state. -/
theorem refresh_token_never_persisted_non_cognito_witness :
    (refreshAccessToken cfgStandard (.renewed ⟨"at2", "rt2"⟩)
        wLogged).2.user = some ⟨"at2", ""⟩ :=
  refresh_token_never_persisted_non_cognito.2 cfgStandard ⟨"at2", "rt2"⟩
    wLogged (by decide) rfl
